import Mathlib

/-!
Verification development for the Gong MCP adapter (`src/lib.rs`).

The Rust server exposes Gong calls as MCP resources and a `search_calls`
tool.  We shallowly embed the routing, query-building, response-shaping,
pagination/truncation and argument-parsing logic as executable Lean
functions.  Upstream HTTP interaction is modelled by passing the upstream
response as an explicit argument and recording the requests the code
would issue as a list of `UpstreamReq` values.
-/

namespace Gong

/-! ## JSON values (serde_json::Value) -/

/-- Model of `serde_json::Value`.  Numbers are modelled as integers, which
covers every accessor the server uses (`as_str`, `as_u64`, `as_bool`,
`as_array`). -/
inductive Json where
  | null : Json
  | bool (b : Bool) : Json
  | num (n : Int) : Json
  | str (s : String) : Json
  | arr (xs : List Json) : Json
  | obj (fields : List (String × Json)) : Json

/-- `Value::as_str`. -/
def Json.asStr : Json → Option String
  | .str s => some s
  | _ => none

/-- `Value::as_bool`. -/
def Json.asBool : Json → Option Bool
  | .bool b => some b
  | _ => none

/-- `Value::as_u64`: only non-negative integers convert. -/
def Json.asU64 : Json → Option Nat
  | .num n => if 0 ≤ n then some n.toNat else none
  | _ => none

/-- `Value::as_array`. -/
def Json.asArr : Json → Option (List Json)
  | .arr xs => some xs
  | _ => none

/-! ## MCP errors (rmcp::ErrorData constructors used by the server) -/

/-- The four `McpError` constructors the server uses, carrying the code
string passed at each call site. -/
inductive McpError where
  | invalidRequest (code : String) : McpError
  | invalidParams (code : String) : McpError
  | resourceNotFound (code : String) : McpError
  | internalError (code : String) : McpError
deriving DecidableEq

/-! ## Upstream (gong-rs) data model, as used by `lib.rs` -/

/-- `models::Affiliation` (rendered by the server via `format!("{:?}")`). -/
inductive Affiliation where
  | Internal : Affiliation
  | External : Affiliation
  | Unknown : Affiliation
deriving DecidableEq

/-- Debug rendering of an affiliation, mirroring `format!("{:?}", a)`. -/
def affiliationRepr : Affiliation → String
  | .Internal => "Internal"
  | .External => "External"
  | .Unknown => "Unknown"

/-- Call direction enumeration (Debug-rendered). -/
inductive Direction where
  | Inbound : Direction
  | Outbound : Direction
  | Conference : Direction
  | Unknown : Direction
deriving DecidableEq

def directionRepr : Direction → String
  | .Inbound => "Inbound"
  | .Outbound => "Outbound"
  | .Conference => "Conference"
  | .Unknown => "Unknown"

/-- Call scope enumeration (Debug-rendered). -/
inductive Scope where
  | Internal : Scope
  | External : Scope
  | Unknown : Scope
deriving DecidableEq

def scopeRepr : Scope → String
  | .Internal => "Internal"
  | .External => "External"
  | .Unknown => "Unknown"

/-- Call media enumeration (Debug-rendered). -/
inductive Media where
  | Video : Media
  | Audio : Media
deriving DecidableEq

def mediaRepr : Media → String
  | .Video => "Video"
  | .Audio => "Audio"

/-- Participant join-method enumeration (Debug-rendered). -/
inductive Method where
  | Invited : Method
  | Attended : Method
deriving DecidableEq

def methodRepr : Method → String
  | .Invited => "Invited"
  | .Attended => "Attended"

/-- `models::CallParty`.  The `context` entries are passed through opaquely
by the shaper, so we model each entry as an opaque string. -/
structure Party where
  id : Option String := none
  name : Option String := none
  emailAddress : Option String := none
  title : Option String := none
  affiliation : Option Affiliation := none
  speakerId : Option String := none
  userId : Option String := none
  phoneNumber : Option String := none
  methods : Option (List Method) := none
  context : Option (List String) := none
deriving DecidableEq

/-- `models::CallMetaData` — the fields `lib.rs` reads. -/
structure MetaData where
  id : Option String := none
  url : Option String := none
  title : Option String := none
  scheduled : Option String := none
  started : Option String := none
  duration : Option Int := none
  direction : Option Direction := none
  primaryUserId : Option String := none
  system : Option String := none
  scope : Option Scope := none
  media : Option Media := none
  language : Option String := none
  workspaceId : Option String := none
  sdrDisposition : Option String := none
  clientUniqueId : Option String := none
  customData : Option String := none
  purpose : Option String := none
  meetingUrl : Option String := none
  isPrivate : Option Bool := none
  calendarEventId : Option String := none
deriving DecidableEq

/-- One call record of a `listCalls` page. -/
structure Call where
  metaData : Option MetaData := none
  parties : Option (List Party) := none
deriving DecidableEq

/-- Pagination records block of a `listCalls` page. -/
structure Records where
  cursor : Option String := none
deriving DecidableEq

/-- `models::Calls` — a `listCalls` page. -/
structure Calls where
  calls : Option (List Call) := none
  records : Option Records := none
deriving DecidableEq

/-- One transcript sentence.  Rust field `end` is called `stop` here
(`end` is a Lean keyword). -/
structure Sentence where
  start : Option Int := none
  stop : Option Int := none
  text : Option String := none
deriving DecidableEq

/-- One transcript monologue. -/
structure Monologue where
  speakerId : Option String := none
  sentences : Option (List Sentence) := none
deriving DecidableEq

/-- One call transcript. -/
structure CallTranscript where
  callId : Option String := none
  transcript : Option (List Monologue) := none
deriving DecidableEq

/-- `models::CallTranscripts` — a `getCallTranscripts` response. -/
structure CallTranscripts where
  callTranscripts : Option (List CallTranscript) := none
deriving DecidableEq

/-- One upstream user record. -/
structure User where
  id : Option String := none
  emailAddress : Option String := none
  firstName : Option String := none
  lastName : Option String := none
  active : Option Bool := none
deriving DecidableEq

/-- `models::Users` — a `listUsers` response. -/
structure Users where
  users : Option (List User) := none
deriving DecidableEq

/-! ## Upstream request parameter structures and the query builder -/

/-- `models::CallContent` content selector flags. -/
structure CallContent where
  callStructure : Option Bool := none
  topics : Option Bool := none
  trackers : Option Bool := none
  trackerOccurrences : Option Bool := none
  pointsOfInterest : Option Bool := none
  brief : Option Bool := none
  outline : Option Bool := none
  highlights : Option Bool := none
  callOutcome : Option Bool := none
  keyPoints : Option Bool := none
deriving DecidableEq

/-- `models::ExposedFields`. -/
structure ExposedFields where
  collaboration : Option Bool := none
  content : Option CallContent := none
  parties : Option Bool := none
  interaction : Option Bool := none
  media : Option Bool := none
deriving DecidableEq

/-- `models::ContentSelector`. -/
structure ContentSelector where
  context : Option String := none
  contextTiming : Option String := none
  exposedFields : Option ExposedFields := none
deriving DecidableEq

/-- `models::CallsRequestFilterWithOwners`. -/
structure CallsRequestFilterWithOwners where
  fromDateTime : Option String := none
  toDateTime : Option String := none
  workspaceId : Option String := none
  callIds : Option (List String) := none
  primaryUserIds : Option (List String) := none
deriving DecidableEq

/-- The parameter structure passed to `list_calls_extensive`. -/
structure ListCallsReq where
  cursor : Option String := none
  filter : CallsRequestFilterWithOwners := {}
  contentSelector : Option ContentSelector := none
deriving DecidableEq

/-- `models::CallsFilter` (used for transcript retrieval). -/
structure CallsFilter where
  fromDateTime : Option String := none
  toDateTime : Option String := none
  workspaceId : Option String := none
  callIds : Option (List String) := none
deriving DecidableEq

/-- The parameter structure passed to `get_call_transcripts`. -/
structure TranscriptReq where
  cursor : Option String := none
  filter : CallsFilter := {}
deriving DecidableEq

/-- The `listCalls` parameter construction of `_fetch_calls_with_filter`
(lines 75–113 of `lib.rs`). -/
def buildListCallsReq (fromDateTime toDateTime workspaceId : Option String)
    (callIds primaryUserIds : Option (List String)) (cursor : Option String)
    (includeStructure : Bool) : ListCallsReq :=
  { cursor := cursor
    filter :=
      { fromDateTime := fromDateTime
        toDateTime := toDateTime
        workspaceId := workspaceId
        callIds := callIds
        primaryUserIds := primaryUserIds }
    contentSelector := some
      { context := none
        contextTiming := none
        exposedFields := some
          { collaboration := none
            content :=
              if includeStructure then
                some { callStructure := some true }
              else
                none
            parties := some true
            interaction := none
            media := none } } }

/-- The `getCallTranscripts` parameter construction of `_fetch_transcript`
(lines 130–142 of `lib.rs`). -/
def buildTranscriptReq (callId : String) : TranscriptReq :=
  { cursor := none
    filter :=
      { fromDateTime := none
        toDateTime := none
        workspaceId := none
        callIds := some [callId] } }

/-- An upstream request as issued by the server. -/
inductive UpstreamReq where
  | listCallsExtensive (p : ListCallsReq) : UpstreamReq
  | getCallTranscripts (p : TranscriptReq) : UpstreamReq
  | listUsers (cursor : Option String) (includeAvatars : Option Bool) : UpstreamReq
deriving DecidableEq

/-! ## Output shapes -/

/-- Participant summary without speakers (call-detail and search shapes). -/
structure PartySummaryOut where
  total : Nat
  internal : Nat
  external : Nat
deriving DecidableEq

/-- Participant summary with speakers (participants resource shape). -/
structure PartySummarySpeakersOut where
  total : Nat
  internal : Nat
  external : Nat
  speakers : Nat
deriving DecidableEq

/-- Participant record in search results (lines 958–966). -/
structure PartyBriefOut where
  id : Option String
  name : Option String
  emailAddress : Option String
  title : Option String
  affiliation : Option String
  speakerId : Option String
  userId : Option String
deriving DecidableEq

/-- Participant record in the participants resource (lines 397–417). -/
structure PartyFullOut where
  id : Option String
  name : Option String
  emailAddress : Option String
  title : Option String
  affiliation : Option String
  speakerId : Option String
  userId : Option String
  phoneNumber : Option String
  methods : Option (List String)
  context : Option (List String)
deriving DecidableEq

/-- One shaped call of a search result (lines 985–994). -/
structure CallOut where
  id : String
  title : String
  started : String
  duration : Int
  direction : String
  participants : List PartyBriefOut
  participantSummary : PartySummaryOut
  url : String
deriving DecidableEq

/-- Echo of the search filters (lines 1016–1024; note: no cursor echo). -/
structure SearchFiltersEcho where
  fromDateTime : Option String
  toDateTime : Option String
  workspaceId : Option String
  callIds : Option (List String)
  primaryUserIds : Option (List String)
  limit : Option Nat
  includeStructure : Bool
deriving DecidableEq

/-- The `search_calls` result shape (lines 1009–1044). -/
structure SearchOut where
  calls : List CallOut
  count : Nat
  totalAvailable : Nat
  truncated : Bool
  nextCursor : Option String
  hasMore : Bool
  filters : SearchFiltersEcho
deriving DecidableEq

/-- One flattened transcript sentence (lines 550–555). -/
structure SentenceOut where
  speakerId : Option String
  start : Option Int
  stop : Option Int
  text : Option String
deriving DecidableEq

/-- Transcript metadata block (lines 577–581). -/
structure TranscriptMeta where
  sentenceCount : Nat
  speakerCount : Nat
  monologueCount : Nat
deriving DecidableEq

/-- The transcript resource shape (lines 573–582). -/
structure TranscriptOut where
  callId : String
  monologues : Option (List Monologue)
  sentences : List SentenceOut
  metadata : TranscriptMeta
deriving DecidableEq

/-- The participants resource shape (lines 458–463). -/
structure ParticipantsOut where
  callId : String
  participants : List PartyFullOut
  summary : PartySummarySpeakersOut
  speakerMap : List (String × String)
deriving DecidableEq

/-- The call-detail resource shape (lines 672–695): absent optional
upstream fields pass through as null. -/
structure DetailOut where
  id : Option String
  url : Option String
  title : Option String
  scheduled : Option String
  started : Option String
  duration : Option Int
  direction : Option String
  primaryUserId : Option String
  system : Option String
  scope : Option String
  media : Option String
  language : Option String
  workspaceId : Option String
  sdrDisposition : Option String
  clientUniqueId : Option String
  customData : Option String
  purpose : Option String
  meetingUrl : Option String
  isPrivate : Option Bool
  calendarEventId : Option String
  participantCount : Nat
  participantSummary : PartySummaryOut
deriving DecidableEq

/-- One shaped user (lines 313–319). -/
structure UserOut where
  id : String
  email : String
  firstName : String
  lastName : String
  active : Bool
deriving DecidableEq

/-- The users resource shape (lines 323–334). -/
structure UsersOut where
  users : List UserOut
  count : Nat
  message : String
deriving DecidableEq

/-- The status resource shape (lines 263–273). -/
structure StatusOut where
  configured : Bool
  baseUrl : Option String
  message : String
deriving DecidableEq

/-- Closed set of successful read-resource payloads. -/
inductive ReadOut where
  | status (s : StatusOut) : ReadOut
  | users (u : UsersOut) : ReadOut
  | participants (p : ParticipantsOut) : ReadOut
  | transcript (t : TranscriptOut) : ReadOut
  | callDetail (d : DetailOut) : ReadOut
deriving DecidableEq

/-! ## Response shaping -/

/-- `matches!(p.affiliation, Some(ref a) if format!("{:?}", a) == "Internal")`. -/
def isInternal (p : Party) : Bool :=
  match p.affiliation with
  | some a => affiliationRepr a == "Internal"
  | none => false

/-- `matches!(p.affiliation, Some(ref a) if format!("{:?}", a) == "External")`. -/
def isExternal (p : Party) : Bool :=
  match p.affiliation with
  | some a => affiliationRepr a == "External"
  | none => false

/-- Internal/external/total counting shared by the call-detail and search
shapes (lines 658–670 and 971–983). -/
def partySummaryOf (ps : List Party) : PartySummaryOut :=
  { total := ps.length
    internal := (ps.filter isInternal).length
    external := (ps.filter isExternal).length }

/-- Counting with speakers for the participants resource (lines 422–436). -/
def partySummarySpeakersOf (ps : List Party) : PartySummarySpeakersOut :=
  { total := ps.length
    internal := (ps.filter isInternal).length
    external := (ps.filter isExternal).length
    speakers := (ps.filter (fun p => p.speakerId.isSome)).length }

/-- Speaker-id to display-label mapping (lines 439–451).  The Rust code
collects into a `HashMap`; we keep the pairs in list order. -/
def speakerMapOf (ps : List Party) : List (String × String) :=
  ps.filterMap fun party =>
    party.speakerId.map fun speakerId =>
      let name := party.name.getD "Unknown"
      let aff := (party.affiliation.map affiliationRepr).getD "Unknown"
      (speakerId, name ++ " (" ++ aff ++ ")")

/-- Search-shape participant formatting (lines 958–966). -/
def formatPartyBrief (party : Party) : PartyBriefOut :=
  { id := party.id
    name := party.name
    emailAddress := party.emailAddress
    title := party.title
    affiliation := party.affiliation.map affiliationRepr
    speakerId := party.speakerId
    userId := party.userId }

/-- Participants-resource participant formatting (lines 397–417). -/
def formatPartyFull (party : Party) : PartyFullOut :=
  { id := party.id
    name := party.name
    emailAddress := party.emailAddress
    title := party.title
    affiliation := party.affiliation.map affiliationRepr
    speakerId := party.speakerId
    userId := party.userId
    phoneNumber := party.phoneNumber
    methods := party.methods.map (List.map methodRepr)
    context := party.context }

/-- Search-shape call formatting (lines 952–994): display defaults for
missing metadata. -/
def formatCall (c : Call) : CallOut :=
  let meta := c.metaData
  { id := (meta.bind MetaData.id).getD ""
    title := (meta.bind MetaData.title).getD "Untitled"
    started := (meta.bind MetaData.started).getD ""
    duration := (meta.bind MetaData.duration).getD 0
    direction := ((meta.bind MetaData.direction).map directionRepr).getD ""
    participants := (c.parties.map (List.map formatPartyBrief)).getD []
    participantSummary :=
      match c.parties with
      | some ps => partySummaryOf ps
      | none => { total := 0, internal := 0, external := 0 }
    url := (meta.bind MetaData.url).getD "" }

/-- Participants-resource shaping for one call (lines 392–463). -/
def participantsOut (callId : String) (c : Call) : ParticipantsOut :=
  { callId := ((c.metaData.bind MetaData.id)).getD callId
    participants := (c.parties.map (List.map formatPartyFull)).getD []
    summary :=
      match c.parties with
      | some ps => partySummarySpeakersOf ps
      | none => { total := 0, internal := 0, external := 0, speakers := 0 }
    speakerMap := (c.parties.map speakerMapOf).getD [] }

/-- Call-detail shaping for one call (lines 653–695). -/
def detailOut (c : Call) : DetailOut :=
  let meta := c.metaData
  { id := meta.bind MetaData.id
    url := meta.bind MetaData.url
    title := meta.bind MetaData.title
    scheduled := meta.bind MetaData.scheduled
    started := meta.bind MetaData.started
    duration := meta.bind MetaData.duration
    direction := (meta.bind MetaData.direction).map directionRepr
    primaryUserId := meta.bind MetaData.primaryUserId
    system := meta.bind MetaData.system
    scope := (meta.bind MetaData.scope).map scopeRepr
    media := (meta.bind MetaData.media).map mediaRepr
    language := meta.bind MetaData.language
    workspaceId := meta.bind MetaData.workspaceId
    sdrDisposition := meta.bind MetaData.sdrDisposition
    clientUniqueId := meta.bind MetaData.clientUniqueId
    customData := meta.bind MetaData.customData
    purpose := meta.bind MetaData.purpose
    meetingUrl := meta.bind MetaData.meetingUrl
    isPrivate := meta.bind MetaData.isPrivate
    calendarEventId := meta.bind MetaData.calendarEventId
    participantCount := (c.parties.map List.length).getD 0
    participantSummary :=
      match c.parties with
      | some ps => partySummaryOf ps
      | none => { total := 0, internal := 0, external := 0 } }

/-- The per-monologue sentence/speaker extraction (lines 537–567): each
sentence is paired with its monologue's speaker id, mirroring the
`flat_map`/`unzip` in the Rust code. -/
def extractSentencePairs (ms : List Monologue) : List (SentenceOut × Option String) :=
  ms.flatMap fun m =>
    ((m.sentences.map fun ss =>
        ss.map fun s =>
          ({ speakerId := m.speakerId
             start := s.start
             stop := s.stop
             text := s.text }, m.speakerId))).getD []

/-- Transcript shaping for one transcript (lines 530–582).  The Rust
`HashSet` of speakers is modelled by deduplicating the per-sentence
speaker-id list; its size is the number of distinct non-null ids. -/
def transcriptOut (t : CallTranscript) : TranscriptOut :=
  let pairs := extractSentencePairs (t.transcript.getD [])
  let sentences := pairs.map Prod.fst
  let speakers := (pairs.map Prod.snd).filterMap id
  { callId := t.callId.getD ""
    monologues := t.transcript
    sentences := sentences
    metadata :=
      { sentenceCount := sentences.length
        speakerCount := speakers.dedup.length
        monologueCount := (t.transcript.map List.length).getD 0 } }

/-- Users shaping (lines 309–334). -/
def usersOut (u : Users) : UsersOut :=
  match u.users with
  | some us =>
    let formatted := us.map fun user =>
      { id := user.id.getD ""
        email := user.emailAddress.getD ""
        firstName := user.firstName.getD ""
        lastName := user.lastName.getD ""
        active := user.active.getD false : UserOut }
    { users := formatted
      count := formatted.length
      message := "Retrieved " ++ toString formatted.length ++ " users" }
  | none => { users := [], count := 0, message := "No users found" }

/-! ## Server state and entry operations -/

/-- `gong_rs::apis::configuration::Configuration` as used here. -/
structure Configuration where
  basePath : String
  basicAuth : Option (String × Option String)
deriving DecidableEq

/-- The server holds an optional configuration. -/
def GongServer := Option Configuration

/-- `GongServer::new` given the three environment values: configured only
when all three are present (lines 18–39). -/
def GongServer.new (baseUrl accessKey accessKeySecret : Option String) : GongServer :=
  match baseUrl, accessKey, accessKeySecret with
  | some b, some k, some s =>
      some { basePath := b, basicAuth := some (k, some s) }
  | _, _, _ => none

/-- `_is_configured`. -/
def isConfigured (g : GongServer) : Bool :=
  (g : Option Configuration).isSome

/-- `list_resources` (lines 216–247), reduced to the returned URIs. -/
def listResources (g : GongServer) : List String :=
  if ¬ isConfigured g then
    ["gong://status"]
  else
    ["gong://status", "gong://users"]

/-- Rust `str::starts_with`, on the character data. -/
def startsWithStr (s p : String) : Bool :=
  p.data.isPrefixOf s.data

/-- Rust `str::ends_with`, on the character data. -/
def endsWithStr (s p : String) : Bool :=
  p.data.isSuffixOf s.data

/-- Rust `str::strip_prefix`: `some` of the remainder when `p` is a
prefix of `s`, else `none`. -/
def stripPrefixOpt (s p : String) : Option String :=
  if p.data.isPrefixOf s.data then some ⟨s.data.drop p.data.length⟩ else none

/-- Rust `str::strip_suffix`: `some` of the front when `p` is a suffix of
`s`, else `none`. -/
def stripSuffixOpt (s p : String) : Option String :=
  if p.data.isSuffixOf s.data then
    some ⟨s.data.take (s.data.length - p.data.length)⟩
  else none

/-- Status shaping (lines 255–281). -/
def statusOf (g : GongServer) : StatusOut :=
  if isConfigured g then
    { configured := true
      baseUrl := some (((g : Option Configuration).map Configuration.basePath).getD "unknown")
      message := "Gong API is configured and ready to use" }
  else
    { configured := false
      baseUrl := none
      message := "Gong API is not configured. Please set GONG_BASE_URL, GONG_ACCESS_KEY, and GONG_ACCESS_KEY_SECRET environment variables." }

/-- The `gong://calls/{callId}/participants` branch (lines 345–488).
`callsResp` is the page the upstream would return for the issued request. -/
def participantsBranch (g : GongServer) (uri : String) (callsResp : Calls) :
    Except McpError ReadOut × List UpstreamReq :=
  if ¬ isConfigured g then
    (.error (.invalidRequest "not_configured"), [])
  else
    match (stripPrefixOpt uri "gong://calls/").bind
        (fun s => stripSuffixOpt s "/participants") with
    | none => (.error (.invalidParams "invalid_uri"), [])
    | some callId =>
      if callId = "" then
        (.error (.invalidParams "missing_call_id"), [])
      else
        let req := buildListCallsReq none none none (some [callId]) none none false
        let res : Except McpError ReadOut :=
          match callsResp.calls with
          | some (c :: _) => .ok (.participants (participantsOut callId c))
          | some [] => .error (.resourceNotFound "call_not_found")
          | none => .error (.resourceNotFound "call_not_found")
        (res, [.listCallsExtensive req])

/-- The `gong://calls/{callId}/transcript` branch (lines 489–607). -/
def transcriptBranch (g : GongServer) (uri : String) (transResp : CallTranscripts) :
    Except McpError ReadOut × List UpstreamReq :=
  if ¬ isConfigured g then
    (.error (.invalidRequest "not_configured"), [])
  else
    match (stripPrefixOpt uri "gong://calls/").bind
        (fun s => stripSuffixOpt s "/transcript") with
    | none => (.error (.invalidParams "invalid_uri"), [])
    | some callId =>
      if callId = "" then
        (.error (.invalidParams "missing_call_id"), [])
      else
        let req := buildTranscriptReq callId
        let res : Except McpError ReadOut :=
          match transResp.callTranscripts with
          | some (t :: _) => .ok (.transcript (transcriptOut t))
          | some [] => .error (.resourceNotFound "transcript_not_found")
          | none => .error (.resourceNotFound "transcript_not_found")
        (res, [.getCallTranscripts req])

/-- The `gong://calls/{callId}` branch (lines 608–720). -/
def callDetailBranch (g : GongServer) (uri : String) (callsResp : Calls) :
    Except McpError ReadOut × List UpstreamReq :=
  if ¬ isConfigured g then
    (.error (.invalidRequest "not_configured"), [])
  else
    match stripPrefixOpt uri "gong://calls/" with
    | none => (.error (.invalidParams "invalid_uri"), [])
    | some callId =>
      if callId = "" then
        (.error (.invalidParams "missing_call_id"), [])
      else
        let req := buildListCallsReq none none none (some [callId]) none none false
        let res : Except McpError ReadOut :=
          match callsResp.calls with
          | some (c :: _) => .ok (.callDetail (detailOut c))
          | some [] => .error (.resourceNotFound "call_not_found")
          | none => .error (.resourceNotFound "call_not_found")
        (res, [.listCallsExtensive req])

/-- `read_resource` (lines 249–732).  The upstream responses are passed
in; the second component records the upstream requests issued. -/
def readResource (g : GongServer) (uri : String) (usersResp : Users)
    (callsResp : Calls) (transResp : CallTranscripts) :
    Except McpError ReadOut × List UpstreamReq :=
  if uri = "gong://status" then
    (.ok (.status (statusOf g)), [])
  else if uri = "gong://users" then
    if ¬ isConfigured g then
      (.error (.invalidRequest "not_configured"), [])
    else
      (.ok (.users (usersOut usersResp)), [.listUsers none (some false)])
  else if startsWithStr uri "gong://calls/" && endsWithStr uri "/participants" then
    participantsBranch g uri callsResp
  else if startsWithStr uri "gong://calls/" && endsWithStr uri "/transcript" then
    transcriptBranch g uri transResp
  else if startsWithStr uri "gong://calls/" then
    callDetailBranch g uri callsResp
  else
    (.error (.resourceNotFound "resource_not_found"), [])

/-! ## Tool argument parsing and the search tool -/

/-- The parsed `search_calls` arguments. -/
structure SearchArgs where
  fromDateTime : Option String
  toDateTime : Option String
  workspaceId : Option String
  callIds : Option (List String)
  primaryUserIds : Option (List String)
  cursor : Option String
  limit : Option Nat
  includeStructure : Bool
deriving DecidableEq

/-- `args.and_then(|a| a.get(key))` on the argument object. -/
def getArg (args : Option (List (String × Json))) (key : String) : Option Json :=
  args.bind fun a => (a.find? fun kv => kv.fst == key).map Prod.snd

/-- The sequential argument extraction of `call_tool` (lines 875–925):
each key is independently read and coerced; a value of the wrong type
becomes absent. -/
def parseSearchArgs (args : Option (List (String × Json))) : SearchArgs :=
  { fromDateTime := (getArg args "from_date_time").bind Json.asStr
    toDateTime := (getArg args "to_date_time").bind Json.asStr
    workspaceId := (getArg args "workspace_id").bind Json.asStr
    callIds := ((getArg args "call_ids").bind Json.asArr).map fun arr =>
      arr.filterMap Json.asStr
    primaryUserIds := ((getArg args "primary_user_ids").bind Json.asArr).map fun arr =>
      arr.filterMap Json.asStr
    cursor := (getArg args "cursor").bind Json.asStr
    limit := (getArg args "limit").bind Json.asU64
    includeStructure := ((getArg args "include_structure").bind Json.asBool).getD false }

/-- Echo of the extracted filters (lines 1016–1024). -/
def echoOf (a : SearchArgs) : SearchFiltersEcho :=
  { fromDateTime := a.fromDateTime
    toDateTime := a.toDateTime
    workspaceId := a.workspaceId
    callIds := a.callIds
    primaryUserIds := a.primaryUserIds
    limit := a.limit
    includeStructure := a.includeStructure }

/-- The result-limiting step of `call_tool` (lines 999–1007): keep the
first `limit` records when a limit is present and smaller than the page,
reporting whether truncation happened. -/
def applyLimit (limit : Option Nat) (xs : List CallOut) : List CallOut × Bool :=
  match limit with
  | some limitValue =>
    if xs.length > limitValue then (xs.take limitValue, true) else (xs, false)
  | none => (xs, false)

/-- `call_tool` (lines 858–1060).  `callsResp` is the upstream page the
issued `listCalls` request would return. -/
def callTool (g : GongServer) (name : String)
    (args : Option (List (String × Json))) (callsResp : Calls) :
    Except McpError SearchOut × List UpstreamReq :=
  if name = "search_calls" then
    if ¬ isConfigured g then
      (.error (.invalidRequest "not_configured"), [])
    else
      let a := parseSearchArgs args
      let req := buildListCallsReq a.fromDateTime a.toDateTime a.workspaceId
        a.callIds a.primaryUserIds a.cursor a.includeStructure
      let out : SearchOut :=
        match callsResp.calls with
        | some calls =>
          let allFormatted := calls.map formatCall
          let totalAvailable := allFormatted.length
          let kept := applyLimit a.limit allFormatted
          { calls := kept.fst
            count := kept.fst.length
            totalAvailable := totalAvailable
            truncated := kept.snd
            nextCursor := callsResp.records.bind Records.cursor
            hasMore := (callsResp.records.bind Records.cursor).isSome
            filters := echoOf a }
        | none =>
          { calls := []
            count := 0
            totalAvailable := 0
            truncated := false
            nextCursor := none
            hasMore := false
            filters := echoOf a }
      (.ok out, [.listCallsExtensive req])
  else
    (.error (.invalidParams "unknown_tool"), [])

/-! ## Spec-side comparison definitions -/

/-- Modelled from the spec: the flattened sentence sequence — monologue
order, then sentence order within a monologue, each sentence carrying its
monologue's speaker id. -/
def specFlattenSentences (ms : List Monologue) : List SentenceOut :=
  ms.flatMap fun m =>
    (m.sentences.getD []).map fun s =>
      { speakerId := m.speakerId, start := s.start, stop := s.stop, text := s.text }

/-- Modelled from the spec: the cardinality of the set of non-null speaker
ids taken across all monologues (including monologues without sentences). -/
def specMonologueSpeakerCount (ms : List Monologue) : Nat :=
  ((ms.filterMap Monologue.speakerId).dedup).length

/-! ## Shared concrete values for witnesses and counterexamples -/

/-- A demo configuration. -/
def cfgDemo : Configuration :=
  { basePath := "https://api.gong.io", basicAuth := some ("key", some "secret") }

/-- A configured server. -/
def serverDemo : GongServer := some cfgDemo

/-- An unconfigured server (missing base URL). -/
def serverNone : GongServer := GongServer.new none (some "key") (some "secret")

/-- Extract the payload of a successful search-tool result. -/
def searchOutOf (r : Except McpError SearchOut) : SearchOut :=
  r.toOption.getD
    { calls := [], count := 0, totalAvailable := 0, truncated := false
      nextCursor := none, hasMore := false
      filters :=
        { fromDateTime := none, toDateTime := none, workspaceId := none
          callIds := none, primaryUserIds := none, limit := none
          includeStructure := false } }

/-! ## String routing infrastructure -/

theorem startsWithStr_append (p s : String) : startsWithStr (p ++ s) p = true := by
  simp [startsWithStr, String.data_append]

theorem endsWithStr_append (s p : String) : endsWithStr (s ++ p) p = true := by
  simp [endsWithStr, String.data_append]

theorem stripPrefixOpt_append (p s : String) : stripPrefixOpt (p ++ s) p = some s := by
  simp [stripPrefixOpt, String.data_append, List.drop_left]

theorem stripSuffixOpt_append (s p : String) : stripSuffixOpt (s ++ p) p = some s := by
  simp [stripSuffixOpt, String.data_append, List.take_left]

/-- A string ending in `/transcript` does not end in `/participants`. -/
theorem not_ends_participants_of_transcript (s : String)
    (h : endsWithStr s "/transcript" = true) :
    endsWithStr s "/participants" = false := by
  by_contra hc
  rw [Bool.not_eq_false] at hc
  simp only [endsWithStr, List.isSuffixOf_iff_suffix] at h hc
  rcases List.suffix_or_suffix_of_suffix h hc with h' | h' <;>
    exact absurd h' (by decide)

/-- Strings with opposite prefix status differ. -/
theorem ne_of_startsWith (a b p : String) (h1 : startsWithStr a p = true)
    (h2 : startsWithStr b p = false) : a ≠ b := by
  intro e
  rw [e, h2] at h1
  exact Bool.false_ne_true h1

/-! ## Claim C1 -/

/-- With a limit present, the kept records are always the first `k`. -/
theorem applyLimit_some_fst (k : Nat) (xs : List CallOut) :
    (applyLimit (some k) xs).fst = xs.take k := by
  show (if xs.length > k then (xs.take k, true) else (xs, false)).fst = xs.take k
  split_ifs with h
  · rfl
  · have hle : xs.length ≤ k := by omega
    exact (List.take_of_length_le hle).symm

/-- With a limit present, the kept count is the minimum. -/
theorem applyLimit_some_length (k : Nat) (xs : List CallOut) :
    (applyLimit (some k) xs).fst.length = min xs.length k := by
  rw [applyLimit_some_fst, List.length_take]
  omega

/-- Truncation flag characterization. -/
theorem applyLimit_snd (limit : Option Nat) (xs : List CallOut) :
    (applyLimit limit xs).snd = true ↔ ∃ k, limit = some k ∧ k < xs.length := by
  cases limit with
  | none => simp [applyLimit]
  | some k =>
    show (if xs.length > k then (xs.take k, true) else (xs, false)).snd = true ↔ _
    split_ifs with h
    · simp only [true_iff]
      exact ⟨k, rfl, by omega⟩
    · simp only [Bool.false_eq_true, false_iff]
      rintro ⟨k', hk', hlt⟩
      cases hk'
      omega

/-- Claim C1: for every `search_calls` invocation whose upstream page
yields the call records `l` and whose client-supplied limit parses to
`L`: `totalAvailable = l.length`; `count = min (l.length) L` when `L` is
present and `l.length` otherwise; `truncated` holds iff `L` is present
and `L < l.length`; and the kept records are exactly the first `L`
formatted records, in upstream order. -/
theorem search_calls_truncation (cfg : Configuration)
    (args : Option (List (String × Json))) (l : List Call)
    (records : Option Records) (out : SearchOut)
    (h : (callTool (some cfg) "search_calls" args
        { calls := some l, records := records }).fst = .ok out) :
    out.totalAvailable = l.length
    ∧ (∀ k, (parseSearchArgs args).limit = some k →
        out.count = min l.length k ∧ out.calls = (l.map formatCall).take k)
    ∧ ((parseSearchArgs args).limit = none →
        out.count = l.length ∧ out.calls = l.map formatCall)
    ∧ (out.truncated = true ↔
        ∃ k, (parseSearchArgs args).limit = some k ∧ k < l.length) := by
  unfold callTool at h
  rw [if_pos rfl, if_neg (by simp [isConfigured])] at h
  dsimp only at h
  replace h := Except.ok.inj h
  subst h
  refine ⟨by simp, ?_, ?_, ?_⟩
  · intro k hk
    dsimp only
    rw [hk, applyLimit_some_length, applyLimit_some_fst]
    simp [List.length_map]
  · intro hnone
    dsimp only
    rw [hnone]
    exact ⟨by simp [applyLimit, List.length_map], rfl⟩
  · dsimp only
    rw [applyLimit_snd]
    simp [List.length_map]

/-- Witness for C1 at the spec's concrete case: five records, limit 3. -/
theorem search_calls_truncation_witness :
    (searchOutOf ((callTool serverDemo "search_calls"
        (some [("limit", Json.num 3)])
        { calls := some [{}, {}, {}, {}, {}] }).fst)).count = min 5 3
    ∧ (searchOutOf ((callTool serverDemo "search_calls"
        (some [("limit", Json.num 3)])
        { calls := some [{}, {}, {}, {}, {}] }).fst)).truncated = true := by
  have h := search_calls_truncation cfgDemo (some [("limit", Json.num 3)])
    [{}, {}, {}, {}, {}] none
    (searchOutOf ((callTool serverDemo "search_calls"
        (some [("limit", Json.num 3)])
        { calls := some [{}, {}, {}, {}, {}] }).fst)) rfl
  refine ⟨(h.2.1 3 rfl).1, ?_⟩
  exact h.2.2.2.mpr ⟨3, rfl, by decide⟩

/-! ## Claim C8 -/

/-- Each party contributes to exactly one of the internal, external or
unrecognized buckets. -/
theorem summary_partition (ps : List Party) :
    (ps.filter isInternal).length + (ps.filter isExternal).length
      + (ps.filter (fun p => !isInternal p && !isExternal p)).length
    = ps.length := by
  induction ps with
  | nil => simp
  | cons p t ih =>
    rcases haff : p.affiliation with _ | a
    · have h1 : isInternal p = false := by simp [isInternal, haff]
      have h2 : isExternal p = false := by simp [isExternal, haff]
      simp [List.filter_cons, h1, h2]
      omega
    · cases a with
      | Internal =>
        have h1 : isInternal p = true := by simp [isInternal, haff, affiliationRepr]
        have h2 : isExternal p = false := by simp [isExternal, haff, affiliationRepr]
        simp [List.filter_cons, h1, h2]
        omega
      | External =>
        have h1 : isInternal p = false := by simp [isInternal, haff, affiliationRepr]
        have h2 : isExternal p = true := by simp [isExternal, haff, affiliationRepr]
        simp [List.filter_cons, h1, h2]
        omega
      | Unknown =>
        have h1 : isInternal p = false := by simp [isInternal, haff, affiliationRepr]
        have h2 : isExternal p = false := by simp [isExternal, haff, affiliationRepr]
        simp [List.filter_cons, h1, h2]
        omega

/-- Claim C8: derived participant summaries satisfy
`internal + external ≤ total`; parties with `Unknown` or absent
affiliation fall in neither count (the partition conjunct); equality
holds exactly when every party carries a recognized affiliation; and the
formatted search calls carry exactly this summary. -/
theorem participant_summary_invariant (ps : List Party) :
    (partySummaryOf ps).internal + (partySummaryOf ps).external
      ≤ (partySummaryOf ps).total
    ∧ (partySummaryOf ps).internal + (partySummaryOf ps).external
        + (ps.filter (fun p => !isInternal p && !isExternal p)).length
      = (partySummaryOf ps).total
    ∧ ((∀ p ∈ ps, isInternal p = true ∨ isExternal p = true) →
        (partySummaryOf ps).internal + (partySummaryOf ps).external
          = (partySummaryOf ps).total)
    ∧ (partySummarySpeakersOf ps).internal = (partySummaryOf ps).internal
    ∧ (partySummarySpeakersOf ps).external = (partySummaryOf ps).external
    ∧ (partySummarySpeakersOf ps).total = (partySummaryOf ps).total
    ∧ (∀ c : Call, c.parties = some ps →
        (formatCall c).participantSummary = partySummaryOf ps) := by
  have hpart := summary_partition ps
  refine ⟨by simp [partySummaryOf]; omega, by simpa [partySummaryOf] using hpart,
    ?_, rfl, rfl, rfl, ?_⟩
  · intro hall
    have hz : (ps.filter (fun p => !isInternal p && !isExternal p)).length = 0 := by
      rw [List.length_eq_zero, List.filter_eq_nil_iff]
      intro p hp
      rcases hall p hp with h | h <;> simp [h]
    simp only [partySummaryOf] at *
    omega
  · intro c hc
    simp [formatCall, hc]

/-- Witness for C8 at the spec's concrete affiliation list
`[Internal, Internal, External, External, External, Unknown]`:
internal 2, external 3, total 6. -/
theorem participant_summary_invariant_witness :
    (partySummaryOf
        [{ affiliation := some .Internal }, { affiliation := some .Internal },
         { affiliation := some .External }, { affiliation := some .External },
         { affiliation := some .External }, { affiliation := some .Unknown }]).internal = 2
    ∧ (partySummaryOf
        [{ affiliation := some .Internal }, { affiliation := some .Internal },
         { affiliation := some .External }, { affiliation := some .External },
         { affiliation := some .External }, { affiliation := some .Unknown }]).external = 3
    ∧ (partySummaryOf
        [{ affiliation := some .Internal }, { affiliation := some .Internal },
         { affiliation := some .External }, { affiliation := some .External },
         { affiliation := some .External }, { affiliation := some .Unknown }]).total = 6
    ∧ (partySummaryOf
        [{ affiliation := some .Internal }, { affiliation := some .Internal },
         { affiliation := some .External }, { affiliation := some .External },
         { affiliation := some .External }, { affiliation := some .Unknown }]).internal
      + (partySummaryOf
        [{ affiliation := some .Internal }, { affiliation := some .Internal },
         { affiliation := some .External }, { affiliation := some .External },
         { affiliation := some .External }, { affiliation := some .Unknown }]).external
      ≤ (partySummaryOf
        [{ affiliation := some .Internal }, { affiliation := some .Internal },
         { affiliation := some .External }, { affiliation := some .External },
         { affiliation := some .External }, { affiliation := some .Unknown }]).total := by
  have h := participant_summary_invariant
    [{ affiliation := some .Internal }, { affiliation := some .Internal },
     { affiliation := some .External }, { affiliation := some .External },
     { affiliation := some .External }, { affiliation := some .Unknown }]
  exact ⟨rfl, rfl, rfl, h.1⟩

/-! ## Claim C9 -/

/-- Claim C9: every `listCalls` request the builder constructs requests
parties data, requests structural content iff `includeStructure`, and
never requests call outcome, highlights, or tracker data; every
transcript fetch filters on exactly the one call id with no date range. -/
theorem query_builder_contract (fromDT toDT ws : Option String)
    (ids us : Option (List String)) (cur : Option String)
    (inc : Bool) (callId : String) :
    (((buildListCallsReq fromDT toDT ws ids us cur inc).contentSelector.bind
        ContentSelector.exposedFields).bind ExposedFields.parties) = some true
    ∧ ((((buildListCallsReq fromDT toDT ws ids us cur inc).contentSelector.bind
        ContentSelector.exposedFields).bind ExposedFields.content).isSome = inc)
    ∧ (∀ c, (((buildListCallsReq fromDT toDT ws ids us cur inc).contentSelector.bind
          ContentSelector.exposedFields).bind ExposedFields.content) = some c →
        c.callStructure = some true ∧ c.callOutcome = none ∧ c.highlights = none
          ∧ c.trackers = none ∧ c.trackerOccurrences = none)
    ∧ (buildTranscriptReq callId).filter.callIds = some [callId]
    ∧ (buildTranscriptReq callId).filter.fromDateTime = none
    ∧ (buildTranscriptReq callId).filter.toDateTime = none
    ∧ (buildTranscriptReq callId).cursor = none := by
  refine ⟨rfl, ?_, ?_, rfl, rfl, rfl, rfl⟩
  · cases inc <;> rfl
  · intro c hc
    cases inc with
    | false => cases hc
    | true =>
      simp only [buildListCallsReq, Option.bind_some, if_true] at hc
      cases hc
      exact ⟨rfl, rfl, rfl, rfl, rfl⟩

/-! ## Routing lemmas -/

/-- An unconfigured server rejects the participants route untouched. -/
theorem participantsBranch_notConfigured (g : GongServer) (uri : String)
    (c : Calls) (hg : isConfigured g = false) :
    participantsBranch g uri c = (.error (.invalidRequest "not_configured"), []) := by
  unfold participantsBranch
  rw [if_pos (by simp [hg])]

/-- An unconfigured server rejects the transcript route untouched. -/
theorem transcriptBranch_notConfigured (g : GongServer) (uri : String)
    (t : CallTranscripts) (hg : isConfigured g = false) :
    transcriptBranch g uri t = (.error (.invalidRequest "not_configured"), []) := by
  unfold transcriptBranch
  rw [if_pos (by simp [hg])]

/-- An unconfigured server rejects the call-detail route untouched. -/
theorem callDetailBranch_notConfigured (g : GongServer) (uri : String)
    (c : Calls) (hg : isConfigured g = false) :
    callDetailBranch g uri c = (.error (.invalidRequest "not_configured"), []) := by
  unfold callDetailBranch
  rw [if_pos (by simp [hg])]

/-- The participants route never issues a transcript fetch. -/
theorem participantsBranch_no_transcript_req (g : GongServer) (uri : String)
    (c : Calls) (p : TranscriptReq) :
    UpstreamReq.getCallTranscripts p ∉ (participantsBranch g uri c).snd := by
  unfold participantsBranch
  split_ifs
  · split
    · simp
    · split_ifs
      · simp
      · simp
  · simp

/-- The call-detail route never issues a transcript fetch. -/
theorem callDetailBranch_no_transcript_req (g : GongServer) (uri : String)
    (c : Calls) (p : TranscriptReq) :
    UpstreamReq.getCallTranscripts p ∉ (callDetailBranch g uri c).snd := by
  unfold callDetailBranch
  split_ifs
  · split
    · simp
    · split_ifs
      · simp
      · simp
  · simp

/-- Any transcript fetch issued by the transcript route is built from a
non-empty extracted call id. -/
theorem transcriptBranch_req_nonempty (g : GongServer) (uri : String)
    (t : CallTranscripts) (p : TranscriptReq)
    (hp : UpstreamReq.getCallTranscripts p ∈ (transcriptBranch g uri t).snd) :
    ∃ i, i ≠ "" ∧ p = buildTranscriptReq i := by
  unfold transcriptBranch at hp
  split_ifs at hp
  · split at hp
    · simp at hp
    · next callId heq =>
      split_ifs at hp with hempty
      · simp at hp
      · simp only [List.mem_singleton, UpstreamReq.getCallTranscripts.injEq] at hp
        exact ⟨callId, hempty, hp⟩
  · simp at hp

/-- Dispatch: a well-formed transcript URI reaches the transcript branch. -/
theorem readResource_dispatch_transcript (g : GongServer) (id : String)
    (u : Users) (c : Calls) (t : CallTranscripts) :
    readResource g ("gong://calls/" ++ id ++ "/transcript") u c t
      = transcriptBranch g ("gong://calls/" ++ id ++ "/transcript") t := by
  have hT : endsWithStr ("gong://calls/" ++ id ++ "/transcript") "/transcript" = true :=
    endsWithStr_append _ _
  have hP : endsWithStr ("gong://calls/" ++ id ++ "/transcript") "/participants" = false :=
    not_ends_participants_of_transcript _ hT
  have hS : startsWithStr ("gong://calls/" ++ id ++ "/transcript") "gong://calls/" = true := by
    rw [String.append_assoc]
    exact startsWithStr_append _ _
  have hne1 : ("gong://calls/" ++ id ++ "/transcript") ≠ "gong://status" :=
    ne_of_startsWith _ "gong://status" "gong://calls/" hS (by decide)
  have hne2 : ("gong://calls/" ++ id ++ "/transcript") ≠ "gong://users" :=
    ne_of_startsWith _ "gong://users" "gong://calls/" hS (by decide)
  unfold readResource
  rw [if_neg hne1, if_neg hne2, if_neg (by simp [hS, hP]), if_pos (by simp [hS, hT])]

/-- Extraction: stripping the transcript URI down to the id. -/
theorem transcript_uri_strip (id : String) :
    (stripPrefixOpt ("gong://calls/" ++ id ++ "/transcript") "gong://calls/").bind
        (fun s => stripSuffixOpt s "/transcript") = some id := by
  rw [String.append_assoc, stripPrefixOpt_append]
  simp [stripSuffixOpt_append]

/-- The transcript branch on a well-formed URI with non-empty id issues
exactly the single-id transcript fetch and shapes the first transcript. -/
theorem transcriptBranch_run (g : GongServer) (id : String)
    (t : CallTranscripts) (hg : isConfigured g = true) (hid : id ≠ "") :
    transcriptBranch g ("gong://calls/" ++ id ++ "/transcript") t
      = ((match t.callTranscripts with
          | some (tr :: _) => .ok (.transcript (transcriptOut tr))
          | some [] => .error (.resourceNotFound "transcript_not_found")
          | none => .error (.resourceNotFound "transcript_not_found")),
        [.getCallTranscripts (buildTranscriptReq id)]) := by
  unfold transcriptBranch
  rw [if_neg (by simp [hg]), transcript_uri_strip id]
  dsimp only
  rw [if_neg hid]

/-! ## Claim C3 -/

/-- Claim C3: a transcript URI with non-empty id routes to a transcript
fetch for exactly that id; `gong://calls//transcript` fails with the
missing-identifier error and `gong://calls/transcript` with the
invalid-URI error (no fetch in either case); and no transcript fetch is
ever issued with an empty identifier, whatever the URI. -/
theorem transcript_route_extraction (cfg : Configuration) (id : String)
    (hid : id ≠ "") (u : Users) (c : Calls) (t : CallTranscripts) :
    (readResource (some cfg) ("gong://calls/" ++ id ++ "/transcript") u c t).snd
      = [.getCallTranscripts (buildTranscriptReq id)]
    ∧ (readResource (some cfg) "gong://calls//transcript" u c t)
      = (.error (.invalidParams "missing_call_id"), [])
    ∧ (readResource (some cfg) "gong://calls/transcript" u c t)
      = (.error (.invalidParams "invalid_uri"), [])
    ∧ (∀ (g : GongServer) (uri : String) (p : TranscriptReq),
        UpstreamReq.getCallTranscripts p ∈ (readResource g uri u c t).snd →
        ∃ i, i ≠ "" ∧ p = buildTranscriptReq i) := by
  refine ⟨?_, ?_, ?_, ?_⟩
  · rw [readResource_dispatch_transcript, transcriptBranch_run (some cfg) id t rfl hid]
  · have hd : readResource (some cfg) "gong://calls//transcript" u c t
        = transcriptBranch (some cfg) "gong://calls//transcript" t := by
      unfold readResource
      rw [if_neg (by decide), if_neg (by decide), if_neg (by decide),
        if_pos (by decide)]
    rw [hd]
    unfold transcriptBranch
    rw [if_neg (by simp [isConfigured])]
    rfl
  · have hd : readResource (some cfg) "gong://calls/transcript" u c t
        = transcriptBranch (some cfg) "gong://calls/transcript" t := by
      unfold readResource
      rw [if_neg (by decide), if_neg (by decide), if_neg (by decide),
        if_pos (by decide)]
    rw [hd]
    unfold transcriptBranch
    rw [if_neg (by simp [isConfigured])]
    rfl
  · intro g uri p hp
    unfold readResource at hp
    split_ifs at hp
    · simp at hp
    · simp at hp
    · simp at hp
    · exact absurd hp (participantsBranch_no_transcript_req g uri c p)
    · exact transcriptBranch_req_nonempty g uri t p hp
    · exact absurd hp (callDetailBranch_no_transcript_req g uri c p)
    · simp at hp

/-- Witness for C3 at id `123456`. -/
theorem transcript_route_extraction_witness :
    (readResource serverDemo "gong://calls/123456/transcript" {} {} {}).snd
      = [.getCallTranscripts (buildTranscriptReq "123456")]
    ∧ (readResource serverDemo "gong://calls//transcript" {} {} {})
      = (.error (.invalidParams "missing_call_id"), []) := by
  have h := transcript_route_extraction cfgDemo "123456" (by decide) {} {} {}
  have heq : ("gong://calls/" ++ "123456" ++ "/transcript") = "gong://calls/123456/transcript" := rfl
  exact ⟨heq ▸ h.1, h.2.1⟩

/-! ## Claim C10 -/

/-- Claim C10: on an unconfigured server every call-scoped URI — even one
whose extracted identifier would be empty — returns NotConfigured; the
InvalidParams errors of the router are unreachable while unconfigured,
and the missing-identifier error is produced once configured. -/
theorem config_check_before_id_validation (g : GongServer)
    (hg : isConfigured g = false) :
    (∀ u c t, (readResource g "gong://calls//transcript" u c t).fst
      = .error (.invalidRequest "not_configured"))
    ∧ (∀ u c t, (readResource g "gong://calls//participants" u c t).fst
      = .error (.invalidRequest "not_configured"))
    ∧ (∀ u c t, (readResource g "gong://calls/" u c t).fst
      = .error (.invalidRequest "not_configured"))
    ∧ (∀ uri u c t code, (readResource g uri u c t).fst ≠ .error (.invalidParams code))
    ∧ (∀ cfg u c t, (readResource (some cfg) "gong://calls//transcript" u c t).fst
      = .error (.invalidParams "missing_call_id")) := by
  refine ⟨?_, ?_, ?_, ?_, ?_⟩
  · intro u c t
    have hd : readResource g "gong://calls//transcript" u c t
        = transcriptBranch g "gong://calls//transcript" t := by
      unfold readResource
      rw [if_neg (by decide), if_neg (by decide), if_neg (by decide),
        if_pos (by decide)]
    rw [hd, transcriptBranch_notConfigured g _ t hg]
  · intro u c t
    have hd : readResource g "gong://calls//participants" u c t
        = participantsBranch g "gong://calls//participants" c := by
      unfold readResource
      rw [if_neg (by decide), if_neg (by decide), if_pos (by decide)]
    rw [hd, participantsBranch_notConfigured g _ c hg]
  · intro u c t
    have hd : readResource g "gong://calls/" u c t
        = callDetailBranch g "gong://calls/" c := by
      unfold readResource
      rw [if_neg (by decide), if_neg (by decide), if_neg (by decide),
        if_neg (by decide), if_pos (by decide)]
    rw [hd, callDetailBranch_notConfigured g _ c hg]
  · intro uri u c t code
    unfold readResource
    split_ifs
    · simp
    · simp_all [isConfigured]
    · simp
    · rw [participantsBranch_notConfigured g _ c hg]
      simp
    · rw [transcriptBranch_notConfigured g _ t hg]
      simp
    · rw [callDetailBranch_notConfigured g _ c hg]
      simp
    · simp
  · intro cfg u c t
    have hd : readResource (some cfg) "gong://calls//transcript" u c t
        = transcriptBranch (some cfg) "gong://calls//transcript" t := by
      unfold readResource
      rw [if_neg (by decide), if_neg (by decide), if_neg (by decide),
        if_pos (by decide)]
    rw [hd]
    unfold transcriptBranch
    rw [if_neg (by simp [isConfigured])]
    rfl

/-- Witness for C10 on a server missing all credentials. -/
theorem config_check_before_id_validation_witness :
    (readResource (GongServer.new none none none) "gong://calls//transcript" {} {} {}).fst
      = .error (.invalidRequest "not_configured")
    ∧ (readResource serverDemo "gong://calls//transcript" {} {} {}).fst
      = .error (.invalidParams "missing_call_id") := by
  have h := config_check_before_id_validation (GongServer.new none none none) rfl
  exact ⟨h.1 {} {} {}, (config_check_before_id_validation
    (GongServer.new none none none) rfl).2.2.2.2 cfgDemo {} {} {}⟩

/-! ## Claim C6 -/

/-- Any of the three credentials being absent leaves the server
unconfigured. -/
theorem isConfigured_new_false (b k s : Option String)
    (hb : b = none ∨ k = none ∨ s = none) :
    isConfigured (GongServer.new b k s) = false := by
  cases b with
  | none => rfl
  | some b' =>
    cases k with
    | none => rfl
    | some k' =>
      cases s with
      | none => rfl
      | some s' => rcases hb with h | h | h <;> simp at h

/-- C6 counterexample: on an unconfigured server, reading an unrecognized
URI yields a NotFound error — not NotConfigured — and an unknown tool
name yields InvalidParams, contradicting the claim that every non-status
read and every tool call fails with NotConfigured. -/
theorem unconfigured_unrecognized_cex :
    (readResource serverNone "gong://other" {} {} {}).fst
      = .error (.resourceNotFound "resource_not_found")
    ∧ McpError.resourceNotFound "resource_not_found"
      ≠ McpError.invalidRequest "not_configured"
    ∧ (callTool serverNone "unknown_tool" none {}).fst
      = .error (.invalidParams "unknown_tool")
    ∧ McpError.invalidParams "unknown_tool"
      ≠ McpError.invalidRequest "not_configured" := by
  exact ⟨rfl, by decide, rfl, by decide⟩

/-- Claim C6 (amended): when any credential is absent, `list_resources`
offers only the status resource; reads of the recognized non-status
resources (`gong://users` and every `gong://calls/`-prefixed URI) and
`search_calls` invocations fail with NotConfigured without issuing any
upstream request; unrecognized URIs yield NotFound and unknown tool
names yield InvalidParams regardless of configuration. -/
theorem unconfigured_gating (b k s : Option String)
    (hb : b = none ∨ k = none ∨ s = none) :
    listResources (GongServer.new b k s) = ["gong://status"]
    ∧ (∀ u c t, readResource (GongServer.new b k s) "gong://users" u c t
        = (.error (.invalidRequest "not_configured"), []))
    ∧ (∀ uri u c t, startsWithStr uri "gong://calls/" = true →
        readResource (GongServer.new b k s) uri u c t
          = (.error (.invalidRequest "not_configured"), []))
    ∧ (∀ args c, callTool (GongServer.new b k s) "search_calls" args c
        = (.error (.invalidRequest "not_configured"), []))
    ∧ (∀ uri u c t, uri ≠ "gong://status" → uri ≠ "gong://users" →
        startsWithStr uri "gong://calls/" = false →
        readResource (GongServer.new b k s) uri u c t
          = (.error (.resourceNotFound "resource_not_found"), []))
    ∧ (∀ (g : GongServer) (name : String) (args : Option (List (String × Json)))
        (c : Calls), name ≠ "search_calls" →
        callTool g name args c = (.error (.invalidParams "unknown_tool"), [])) := by
  have hg := isConfigured_new_false b k s hb
  refine ⟨?_, ?_, ?_, ?_, ?_, ?_⟩
  · unfold listResources
    rw [if_pos (by simp [hg])]
  · intro u c t
    unfold readResource
    rw [if_neg (by decide), if_pos rfl, if_pos (by simp [hg])]
  · intro uri u c t hS
    have hne1 : uri ≠ "gong://status" :=
      ne_of_startsWith uri "gong://status" "gong://calls/" hS (by decide)
    have hne2 : uri ≠ "gong://users" :=
      ne_of_startsWith uri "gong://users" "gong://calls/" hS (by decide)
    unfold readResource
    rw [if_neg hne1, if_neg hne2]
    by_cases hP : endsWithStr uri "/participants" = true
    · rw [if_pos (by simp [hS, hP])]
      exact participantsBranch_notConfigured _ _ _ hg
    · rw [if_neg (by simp [hS, hP])]
      by_cases hT : endsWithStr uri "/transcript" = true
      · rw [if_pos (by simp [hS, hT])]
        exact transcriptBranch_notConfigured _ _ _ hg
      · rw [if_neg (by simp [hS, hT]), if_pos (by simp [hS])]
        exact callDetailBranch_notConfigured _ _ _ hg
  · intro args c
    unfold callTool
    rw [if_pos rfl, if_pos (by simp [hg])]
  · intro uri u c t h1 h2 hS0
    unfold readResource
    rw [if_neg h1, if_neg h2, if_neg (by simp [hS0]), if_neg (by simp [hS0]),
      if_neg (by simp [hS0])]
  · intro g name args c hname
    unfold callTool
    rw [if_neg hname]

/-- Witness for C6 (amended) on a server missing the base URL. -/
theorem unconfigured_gating_witness :
    listResources serverNone = ["gong://status"]
    ∧ readResource serverNone "gong://users" {} {} {}
      = (.error (.invalidRequest "not_configured"), [])
    ∧ callTool serverNone "search_calls" none {}
      = (.error (.invalidRequest "not_configured"), []) := by
  have h := unconfigured_gating none (some "key") (some "secret") (Or.inl rfl)
  exact ⟨h.1, h.2.1 {} {} {}, h.2.2.2.1 none {}⟩

/-! ## More routing lemmas (participants and call-detail dispatch) -/

/-- Dispatch: a well-formed participants URI reaches the participants
branch. -/
theorem readResource_dispatch_participants (g : GongServer) (id : String)
    (u : Users) (c : Calls) (t : CallTranscripts) :
    readResource g ("gong://calls/" ++ id ++ "/participants") u c t
      = participantsBranch g ("gong://calls/" ++ id ++ "/participants") c := by
  have hP : endsWithStr ("gong://calls/" ++ id ++ "/participants") "/participants" = true :=
    endsWithStr_append _ _
  have hS : startsWithStr ("gong://calls/" ++ id ++ "/participants") "gong://calls/" = true := by
    rw [String.append_assoc]
    exact startsWithStr_append _ _
  have hne1 : ("gong://calls/" ++ id ++ "/participants") ≠ "gong://status" :=
    ne_of_startsWith _ "gong://status" "gong://calls/" hS (by decide)
  have hne2 : ("gong://calls/" ++ id ++ "/participants") ≠ "gong://users" :=
    ne_of_startsWith _ "gong://users" "gong://calls/" hS (by decide)
  unfold readResource
  rw [if_neg hne1, if_neg hne2, if_pos (by simp [hS, hP])]

/-- Extraction: stripping the participants URI down to the id. -/
theorem participants_uri_strip (id : String) :
    (stripPrefixOpt ("gong://calls/" ++ id ++ "/participants") "gong://calls/").bind
        (fun s => stripSuffixOpt s "/participants") = some id := by
  rw [String.append_assoc, stripPrefixOpt_append]
  simp [stripSuffixOpt_append]

/-- The participants branch on a well-formed URI with non-empty id issues
exactly the single-id list-calls fetch and shapes the first call. -/
theorem participantsBranch_run (g : GongServer) (id : String) (c : Calls)
    (hg : isConfigured g = true) (hid : id ≠ "") :
    participantsBranch g ("gong://calls/" ++ id ++ "/participants") c
      = ((match c.calls with
          | some (cc :: _) => .ok (.participants (participantsOut id cc))
          | some [] => .error (.resourceNotFound "call_not_found")
          | none => .error (.resourceNotFound "call_not_found")),
        [.listCallsExtensive (buildListCallsReq none none none (some [id]) none none false)]) := by
  unfold participantsBranch
  rw [if_neg (by simp [hg]), participants_uri_strip id]
  dsimp only
  rw [if_neg hid]

/-- Dispatch: a call-detail URI (one whose remainder ends in neither
reserved suffix) reaches the call-detail branch. -/
theorem readResource_dispatch_detail (g : GongServer) (id : String)
    (u : Users) (c : Calls) (t : CallTranscripts)
    (hP : endsWithStr ("gong://calls/" ++ id) "/participants" = false)
    (hT : endsWithStr ("gong://calls/" ++ id) "/transcript" = false) :
    readResource g ("gong://calls/" ++ id) u c t
      = callDetailBranch g ("gong://calls/" ++ id) c := by
  have hS : startsWithStr ("gong://calls/" ++ id) "gong://calls/" = true :=
    startsWithStr_append _ _
  have hne1 : ("gong://calls/" ++ id) ≠ "gong://status" :=
    ne_of_startsWith _ "gong://status" "gong://calls/" hS (by decide)
  have hne2 : ("gong://calls/" ++ id) ≠ "gong://users" :=
    ne_of_startsWith _ "gong://users" "gong://calls/" hS (by decide)
  unfold readResource
  rw [if_neg hne1, if_neg hne2, if_neg (by simp [hP]), if_neg (by simp [hT]),
    if_pos (by simp [hS])]

/-- The call-detail branch on a well-formed URI with non-empty id issues
exactly the single-id list-calls fetch and shapes the first call. -/
theorem callDetailBranch_run (g : GongServer) (id : String) (c : Calls)
    (hg : isConfigured g = true) (hid : id ≠ "") :
    callDetailBranch g ("gong://calls/" ++ id) c
      = ((match c.calls with
          | some (cc :: _) => .ok (.callDetail (detailOut cc))
          | some [] => .error (.resourceNotFound "call_not_found")
          | none => .error (.resourceNotFound "call_not_found")),
        [.listCallsExtensive (buildListCallsReq none none none (some [id]) none none false)]) := by
  unfold callDetailBranch
  rw [if_neg (by simp [hg]), stripPrefixOpt_append]
  dsimp only
  rw [if_neg hid]

/-- The empty page truncates to nothing, untruncated. -/
theorem applyLimit_nil (limit : Option Nat) : applyLimit limit [] = ([], false) := by
  cases limit with
  | none => rfl
  | some k =>
    show (if ([] : List CallOut).length > k
        then (([] : List CallOut).take k, true)
        else (([] : List CallOut), false)) = (([] : List CallOut), false)
    rw [if_neg (by simp)]

/-! ## Claim C5 -/

/-- C5 counterexample: a present-but-empty upstream calls list carrying a
continuation cursor yields a zero-call success whose `hasMore` is true,
contradicting the claim that zero-call searches report `hasMore` false. -/
theorem zero_calls_hasMore_cex :
    (searchOutOf ((callTool serverDemo "search_calls" none
        { calls := some [], records := some { cursor := some "abc" } }).fst)).count = 0
    ∧ (searchOutOf ((callTool serverDemo "search_calls" none
        { calls := some [], records := some { cursor := some "abc" } }).fst)).calls = []
    ∧ (searchOutOf ((callTool serverDemo "search_calls" none
        { calls := some [], records := some { cursor := some "abc" } }).fst)).hasMore = true := by
  exact ⟨rfl, rfl, rfl⟩

/-- Claim C5 (amended): the single-call routes turn a zero-record
upstream page into NotFound, never an empty success; the search tool
turns zero calls into a success with empty calls, zero counts and no
truncation, where `hasMore` mirrors the upstream cursor when the calls
field is present but empty and is false when the field is absent. -/
theorem zero_record_policy (cfg : Configuration) (id : String)
    (hid : id ≠ "") (u : Users) :
    (∀ c0 : Calls, c0.calls = some [] ∨ c0.calls = none → ∀ t0,
      (readResource (some cfg) ("gong://calls/" ++ id ++ "/participants") u c0 t0).fst
        = .error (.resourceNotFound "call_not_found"))
    ∧ (∀ t0 : CallTranscripts,
        t0.callTranscripts = some [] ∨ t0.callTranscripts = none → ∀ c0,
        (readResource (some cfg) ("gong://calls/" ++ id ++ "/transcript") u c0 t0).fst
          = .error (.resourceNotFound "transcript_not_found"))
    ∧ (endsWithStr ("gong://calls/" ++ id) "/participants" = false →
        endsWithStr ("gong://calls/" ++ id) "/transcript" = false →
        ∀ c0 : Calls, c0.calls = some [] ∨ c0.calls = none → ∀ t0,
        (readResource (some cfg) ("gong://calls/" ++ id) u c0 t0).fst
          = .error (.resourceNotFound "call_not_found"))
    ∧ (∀ args records out,
        (callTool (some cfg) "search_calls" args
            { calls := some [], records := records }).fst = .ok out →
        out.calls = [] ∧ out.count = 0 ∧ out.totalAvailable = 0
          ∧ out.truncated = false ∧ out.nextCursor = records.bind Records.cursor
          ∧ out.hasMore = (records.bind Records.cursor).isSome)
    ∧ (∀ args records out,
        (callTool (some cfg) "search_calls" args
            { calls := none, records := records }).fst = .ok out →
        out.calls = [] ∧ out.count = 0 ∧ out.totalAvailable = 0
          ∧ out.truncated = false ∧ out.nextCursor = none ∧ out.hasMore = false) := by
  refine ⟨?_, ?_, ?_, ?_, ?_⟩
  · intro c0 hc t0
    rw [readResource_dispatch_participants, participantsBranch_run (some cfg) id c0 rfl hid]
    rcases hc with hc | hc <;> rw [hc]
  · intro t0 ht c0
    rw [readResource_dispatch_transcript, transcriptBranch_run (some cfg) id t0 rfl hid]
    rcases ht with ht | ht <;> rw [ht]
  · intro hP hT c0 hc t0
    rw [readResource_dispatch_detail (some cfg) id u c0 t0 hP hT,
      callDetailBranch_run (some cfg) id c0 rfl hid]
    rcases hc with hc | hc <;> rw [hc]
  · intro args records out h
    unfold callTool at h
    rw [if_pos rfl, if_neg (by simp [isConfigured])] at h
    dsimp only at h
    simp only [List.map_nil] at h
    rw [applyLimit_nil] at h
    replace h := Except.ok.inj h
    subst h
    exact ⟨rfl, rfl, rfl, rfl, rfl, rfl⟩
  · intro args records out h
    unfold callTool at h
    rw [if_pos rfl, if_neg (by simp [isConfigured])] at h
    dsimp only at h
    replace h := Except.ok.inj h
    subst h
    exact ⟨rfl, rfl, rfl, rfl, rfl, rfl⟩

/-- Witness for C5 (amended) at id `c1` with empty and absent pages. -/
theorem zero_record_policy_witness :
    (readResource serverDemo "gong://calls/c1/participants" {} { calls := some [] } {}).fst
      = .error (.resourceNotFound "call_not_found")
    ∧ (readResource serverDemo "gong://calls/c1/transcript" {} {}
        { callTranscripts := none }).fst
      = .error (.resourceNotFound "transcript_not_found")
    ∧ (readResource serverDemo "gong://calls/c1" {} { calls := none } {}).fst
      = .error (.resourceNotFound "call_not_found") := by
  have h := zero_record_policy cfgDemo "c1" (by decide) {}
  refine ⟨?_, ?_, ?_⟩
  · exact h.1 { calls := some [] } (Or.inl rfl) {}
  · exact h.2.1 { callTranscripts := none } (Or.inr rfl) { calls := none }
  · exact h.2.2.1 (by decide) (by decide) { calls := none } (Or.inr rfl) {}

/-! ## Claim C2 -/

/-- C2 counterexample: with the upstream calls field absent but a
continuation cursor present, the code hardcodes `hasMore = false` and a
null `nextCursor`, so `hasMore` does not track the upstream cursor. -/
theorem hasMore_cursor_cex :
    (searchOutOf ((callTool serverDemo "search_calls" none
        { calls := none, records := some { cursor := some "abc" } }).fst)).hasMore = false
    ∧ (searchOutOf ((callTool serverDemo "search_calls" none
        { calls := none, records := some { cursor := some "abc" } }).fst)).nextCursor = none
    ∧ (({ calls := none, records := some { cursor := some "abc" } } : Calls).records.bind
        Records.cursor).isSome = true := by
  exact ⟨rfl, rfl, rfl⟩

/-- Claim C2 (amended): whenever the upstream page's calls field is
present, `hasMore` is exactly the presence of the upstream continuation
cursor — independent of client-side truncation — and `nextCursor` is the
cursor passed through unmodified; when the calls field is absent the
code hardcodes `hasMore = false` and a null `nextCursor` even if the
upstream record block carries a cursor. -/
theorem hasMore_tracks_cursor (cfg : Configuration)
    (args : Option (List (String × Json))) (l : List Call)
    (records : Option Records) (out : SearchOut)
    (h : (callTool (some cfg) "search_calls" args
        { calls := some l, records := records }).fst = .ok out) :
    out.hasMore = (records.bind Records.cursor).isSome
    ∧ out.nextCursor = records.bind Records.cursor
    ∧ (∀ out2, (callTool (some cfg) "search_calls" args
          { calls := none, records := records }).fst = .ok out2 →
        out2.hasMore = false ∧ out2.nextCursor = none) := by
  unfold callTool at h
  rw [if_pos rfl, if_neg (by simp [isConfigured])] at h
  dsimp only at h
  replace h := Except.ok.inj h
  subst h
  refine ⟨rfl, rfl, ?_⟩
  intro out2 h2
  unfold callTool at h2
  rw [if_pos rfl, if_neg (by simp [isConfigured])] at h2
  dsimp only at h2
  replace h2 := Except.ok.inj h2
  subst h2
  exact ⟨rfl, rfl⟩

/-- Witness for C2 (amended): a truncated page can still report more
upstream pages, and a full page can report none. -/
theorem hasMore_tracks_cursor_witness :
    (searchOutOf ((callTool serverDemo "search_calls"
        (some [("limit", Json.num 1)])
        { calls := some [{}, {}, {}], records := some { cursor := some "abc" } }).fst)).truncated
      = true
    ∧ (searchOutOf ((callTool serverDemo "search_calls"
        (some [("limit", Json.num 1)])
        { calls := some [{}, {}, {}], records := some { cursor := some "abc" } }).fst)).hasMore
      = true
    ∧ (searchOutOf ((callTool serverDemo "search_calls" none
        { calls := some [{}, {}, {}], records := none }).fst)).truncated = false
    ∧ (searchOutOf ((callTool serverDemo "search_calls" none
        { calls := some [{}, {}, {}], records := none }).fst)).hasMore = false := by
  have h1 := hasMore_tracks_cursor cfgDemo (some [("limit", Json.num 1)])
    [{}, {}, {}] (some { cursor := some "abc" })
    (searchOutOf ((callTool serverDemo "search_calls"
        (some [("limit", Json.num 1)])
        { calls := some [{}, {}, {}], records := some { cursor := some "abc" } }).fst)) rfl
  have h2 := hasMore_tracks_cursor cfgDemo none [{}, {}, {}] none
    (searchOutOf ((callTool serverDemo "search_calls" none
        { calls := some [{}, {}, {}], records := none }).fst)) rfl
  exact ⟨rfl, h1.1, rfl, h2.1⟩

/-! ## Claim C4 -/

/-- The first components of the sentence/speaker pairs are the
spec-ordered flattened sentences. -/
theorem extractSentencePairs_fst (ms : List Monologue) :
    (extractSentencePairs ms).map Prod.fst = specFlattenSentences ms := by
  induction ms with
  | nil => rfl
  | cons m tail ih =>
    simp only [extractSentencePairs, specFlattenSentences, List.flatMap_cons,
      List.map_append] at *
    rw [ih]
    cases m.sentences <;> simp [List.map_map]

/-- The second components are the flattened sentences' speaker ids. -/
theorem extractSentencePairs_snd (ms : List Monologue) :
    (extractSentencePairs ms).map Prod.snd
      = (specFlattenSentences ms).map SentenceOut.speakerId := by
  induction ms with
  | nil => rfl
  | cons m tail ih =>
    simp only [extractSentencePairs, specFlattenSentences, List.flatMap_cons,
      List.map_append] at *
    rw [ih]
    cases m.sentences <;> simp [List.map_map]

/-- A monologue with a declared speaker but no sentences. -/
def monoEmptyA : Monologue := { speakerId := some "A", sentences := some [] }

/-- A transcript consisting only of the sentence-less monologue. -/
def trEmptyA : CallTranscript := { callId := some "c1", transcript := some [monoEmptyA] }

/-- Monologue of speaker A with two sentences. -/
def monoA2 : Monologue :=
  { speakerId := some "A"
    sentences := some [{ text := some "s1" }, { text := some "s2" }] }

/-- Monologue of speaker B with one sentence. -/
def monoB1 : Monologue :=
  { speakerId := some "B", sentences := some [{ text := some "s3" }] }

/-- The spec's concrete two-monologue transcript. -/
def trDemo : CallTranscript := { callId := some "c1", transcript := some [monoA2, monoB1] }

/-- C4 counterexample: a monologue with a speaker but no sentences is not
counted — the code reports `speakerCount = 0` where the spec's
across-all-monologues count is 1. -/
theorem transcript_speakerCount_cex :
    (readResource serverDemo "gong://calls/c1/transcript" {} {}
        { callTranscripts := some [trEmptyA] }).fst
      = .ok (.transcript (transcriptOut trEmptyA))
    ∧ (transcriptOut trEmptyA).metadata.speakerCount = 0
    ∧ specMonologueSpeakerCount [monoEmptyA] = 1 := by
  exact ⟨rfl, rfl, rfl⟩

/-- Claim C4 (amended): for every transcript read, the flattened
sentences follow the spec's monologue-then-sentence order,
`sentenceCount` is their length, and `speakerCount` is the number of
distinct non-null speaker ids attached to the flattened sentences —
monologues that contribute no sentences are not counted. -/
theorem transcript_shaping (t : CallTranscript) :
    (transcriptOut t).sentences = specFlattenSentences (t.transcript.getD [])
    ∧ (transcriptOut t).metadata.sentenceCount = (transcriptOut t).sentences.length
    ∧ (transcriptOut t).metadata.speakerCount
      = (((specFlattenSentences (t.transcript.getD [])).filterMap
          SentenceOut.speakerId).dedup).length
    ∧ (transcriptOut t).metadata.monologueCount = (t.transcript.getD []).length
    ∧ (∀ (cfg : Configuration) (id : String), id ≠ "" →
        ∀ (u : Users) (c : Calls) (rest : List CallTranscript),
        (readResource (some cfg) ("gong://calls/" ++ id ++ "/transcript") u c
            { callTranscripts := some (t :: rest) }).fst
          = .ok (.transcript (transcriptOut t))) := by
  refine ⟨?_, rfl, ?_, ?_, ?_⟩
  · exact extractSentencePairs_fst _
  · show (((extractSentencePairs (t.transcript.getD [])).map Prod.snd).filterMap
        id).dedup.length = _
    rw [extractSentencePairs_snd, List.filterMap_map]
    rfl
  · cases t with
    | mk cid tr => cases tr <;> rfl
  · intro cfg id hid u c rest
    rw [readResource_dispatch_transcript,
      transcriptBranch_run (some cfg) id _ rfl hid]

/-- Witness for C4 (amended) at the spec's concrete two-monologue case. -/
theorem transcript_shaping_witness :
    (transcriptOut trDemo).metadata.sentenceCount = 3
    ∧ (transcriptOut trDemo).metadata.speakerCount = 2
    ∧ (readResource serverDemo "gong://calls/c1/transcript" {} {}
        { callTranscripts := some [trDemo] }).fst
      = .ok (.transcript (transcriptOut trDemo)) := by
  have h := transcript_shaping trDemo
  refine ⟨rfl, rfl, ?_⟩
  exact h.2.2.2.2 cfgDemo "c1" (by decide) {} {} []

/-! ## Claim C7 -/

/-- C7 counterexample: a mistyped `workspace_id` (a number, not a string)
does not produce an InvalidParams error — the call succeeds and the
upstream request is issued with the argument silently dropped. -/
theorem mistyped_arg_cex :
    (callTool serverDemo "search_calls" (some [("workspace_id", Json.num 42)])
        { calls := some [] }).fst
      = .ok (searchOutOf ((callTool serverDemo "search_calls"
          (some [("workspace_id", Json.num 42)]) { calls := some [] }).fst))
    ∧ (searchOutOf ((callTool serverDemo "search_calls"
        (some [("workspace_id", Json.num 42)]) { calls := some [] }).fst)).filters.workspaceId
      = none
    ∧ (callTool serverDemo "search_calls" (some [("workspace_id", Json.num 42)])
        { calls := some [] }).snd
      = [.listCallsExtensive (buildListCallsReq none none none none none none false)] := by
  exact ⟨rfl, rfl, rfl⟩

/-- Claim C7 (amended): `search_calls` never rejects an argument bag —
arguments failing their type check are coerced to absent and the
upstream request is still issued; concretely, a numeric `workspace_id`,
a non-array `call_ids`, a negative `limit` and a non-boolean
`include_structure` all parse as absent/default. -/
theorem mistyped_args_ignored (cfg : Configuration)
    (args : Option (List (String × Json))) (resp : Calls) :
    ((callTool (some cfg) "search_calls" args resp).fst).isOk = true
    ∧ (callTool (some cfg) "search_calls" args resp).snd
      = [.listCallsExtensive (buildListCallsReq (parseSearchArgs args).fromDateTime
          (parseSearchArgs args).toDateTime (parseSearchArgs args).workspaceId
          (parseSearchArgs args).callIds (parseSearchArgs args).primaryUserIds
          (parseSearchArgs args).cursor (parseSearchArgs args).includeStructure)]
    ∧ (parseSearchArgs (some [("workspace_id", Json.num 42)])).workspaceId = none
    ∧ (parseSearchArgs (some [("call_ids", Json.str "x")])).callIds = none
    ∧ (parseSearchArgs (some [("limit", Json.num (-5))])).limit = none
    ∧ (parseSearchArgs (some [("include_structure", Json.str "yes")])).includeStructure
      = false := by
  refine ⟨?_, ?_, rfl, rfl, rfl, rfl⟩
  · unfold callTool
    rw [if_pos rfl, if_neg (by simp [isConfigured])]
    rfl
  · unfold callTool
    rw [if_pos rfl, if_neg (by simp [isConfigured])]

/-- Witness for C9 with structure requested for call id `c1`. -/
theorem query_builder_contract_witness :
    (((buildListCallsReq none none none none none none true).contentSelector.bind
        ContentSelector.exposedFields).bind ExposedFields.parties) = some true
    ∧ (buildTranscriptReq "c1").filter.callIds = some ["c1"]
    ∧ ((((buildListCallsReq none none none none none none true).contentSelector.bind
        ContentSelector.exposedFields).bind ExposedFields.content).map
          CallContent.callOutcome) = some none := by
  have h := query_builder_contract none none none none none none true "c1"
  refine ⟨h.1, h.2.2.2.1, ?_⟩
  have h3 := h.2.2.1 { callStructure := some true } rfl
  simp [buildListCallsReq]

end Gong
